import Mathlib

/-!
Shallow embedding of `homeassistant/components/scheduler/__init__.py` and
`homeassistant/components/modbus/binary_sensor.py`.

Conventions of the embedding:
* Python `None` is `Option.none`; the Python idiom `x or y` on list-valued
  fields (`entity_ids or []`, `days or [0,1,2,3,4,5,6]`) is `pyOrList`.
* A JSON object field is a `JField`: it can be missing from the object
  (`absent`, so that subscripting raises `KeyError`), be JSON `null`
  (Python `None`), or hold a value.  Subscript access `data[key]` is
  `JField.get`, returning `Except`.
* Exceptions are modelled with `Except PyErr`; mutation of the shared
  `hass` object is explicit state passing, and object constructions
  performed by `setup_schedule` are recorded in an effect trace so that
  "a Schedule object was constructed" is observable even when a later
  step of the same call fails.
* Code of the repository that the claims depend on but that is not under
  `src/` (the component loader, the concrete event-listener plugins and
  the timer subsystem) is modelled from the spec; each such definition
  carries a doc comment starting with `Modelled from the spec:`.
-/

namespace Scheduler

/-- Python errors that the scheduler setup path can raise. -/
inductive PyErr where
  | keyError (key : String)
  | typeError
  | pluginResolutionError (component : String)
  deriving Repr, DecidableEq

/-- A JSON object field: missing key, JSON null, or a value. -/
inductive JField (α : Type) where
  | absent
  | null
  | val (a : α)
  deriving Repr, DecidableEq

/-- Python dict subscript `data[key]`: `KeyError` when the key is missing,
`None` for JSON null, otherwise the value. -/
def JField.get (key : String) : JField α → Except PyErr (Option α)
  | .absent => .error (.keyError key)
  | .null => .ok none
  | .val a => .ok (some a)

/-- The value of a `JField` ignoring the missing-key case (used only in
statements, never by the embedded code). -/
def JField.toOption : JField α → Option α
  | .absent => none
  | .null => none
  | .val a => some a

/-- Python `x or dflt` for an optional list value: `None` and the empty
list are falsy and give the default. -/
def pyOrList (x : Option (List α)) (dflt : List α) : List α :=
  match x with
  | none => dflt
  | some l => if l.isEmpty then dflt else l

/-- One record of the `events` array of a schedule definition: the `type`
discriminator plus the variant-specific trigger parameter (the baseline
variant's time of day, in minutes). -/
structure EventData where
  type_ : String
  minute : Nat
  deriving Repr, DecidableEq

/-- One parsed record of `schedule.json`, with the keys `setup_schedule`
subscripts: `id`, `name`, `description`, `entity_ids`, `days`, `events`. -/
structure ScheduleData where
  id_ : JField String
  name : JField String
  description : JField String
  entity_ids : JField (List String)
  days : JField (List Nat)
  events : JField (List EventData)
  deriving Repr, DecidableEq

/-- The kind of an event listener: an instance of the base `EventListener`
class (whose `schedule`/`execute` are `pass`), or the concrete fixed
time-of-day plugin variant. -/
inductive ListenerKind where
  | base
  | timeOfDay (minute : Nat)
  deriving Repr, DecidableEq

/-- An event listener.  `sched_id`/`sched_days` are the weak back-reference
to the owning schedule, snapshotted at `create` time and used only to read
the schedule's metadata. -/
structure EventListener where
  sched_id : Option String
  sched_days : List Nat
  eventType : String
  kind : ListenerKind
  deriving Repr, DecidableEq

/-- The `Schedule` class: metadata plus the ordered `_event_listeners`. -/
structure Schedule where
  schedule_id : Option String
  name : Option String
  description : Option String
  entity_ids : List String
  days : List Nat
  event_listeners : List EventListener
  deriving Repr, DecidableEq

/-- `Schedule.__init__`: stores the metadata, applying `entity_ids or []`
and `days or [0, 1, 2, 3, 4, 5, 6]`, and starts with no listeners. -/
def Schedule.init (schedule_id name description : Option String)
    (entity_ids : Option (List String)) (days : Option (List Nat)) : Schedule :=
  { schedule_id := schedule_id
    name := name
    description := description
    entity_ids := pyOrList entity_ids []
    days := pyOrList days [0, 1, 2, 3, 4, 5, 6]
    event_listeners := [] }

/-- `Schedule.add_event_listener`: appends to `_event_listeners`. -/
def Schedule.add_event_listener (self : Schedule) (l : EventListener) : Schedule :=
  { self with event_listeners := self.event_listeners ++ [l] }

/-- A pending trigger registration record of the timer subsystem. -/
structure Trigger where
  eventType : String
  minute : Nat
  fireAt : Nat
  weekdayGate : List Nat
  deriving Repr, DecidableEq

/-- The observable state of the `hass` object: the current time (minutes
since a Monday-midnight epoch), the pending trigger registrations, and a
log of the handler executions the timer has dispatched. -/
structure Hass where
  now : Nat
  triggers : List Trigger
  executions : List (String × Nat)
  deriving Repr, DecidableEq

/-- Modelled from the spec: the baseline fixed time-of-day variant's
`computeNextFireTime` — the next instant strictly after `after` whose
time of day equals the configured minute (the concrete plugin variants
are not under `src/`). -/
def computeNextFireTime (minute after : Nat) : Nat :=
  let d := (minute % 1440 + 1440 - after % 1440) % 1440
  after + (if d = 0 then 1440 else d)

/-- Dispatch of `event.schedule(hass)`.  The base class (source line 100)
does nothing and returns `None`; the concrete time-of-day variant is
modelled from the spec: `register` computes the first fire time with
`computeNextFireTime` and inserts one trigger record whose weekday gate is
the owning schedule's active days. -/
def EventListener.schedule (self : EventListener) (hass : Hass) :
    Unit × EventListener × Hass :=
  match self.kind with
  | .base => ((), self, hass)
  | .timeOfDay m =>
      ((), self,
        { hass with
            triggers := hass.triggers ++
              [{ eventType := self.eventType
                 minute := m
                 fireAt := computeNextFireTime m hass.now
                 weekdayGate := self.sched_days }] })

/-- Dispatch of `event.execute(hass)`.  The base class (source line 104)
does nothing and returns `None`; the concrete variant is modelled from the
spec: it performs its effect, recorded here in the execution log. -/
def EventListener.execute (self : EventListener) (hass : Hass) :
    Unit × EventListener × Hass :=
  match self.kind with
  | .base => ((), self, hass)
  | .timeOfDay _ =>
      ((), self, { hass with executions := hass.executions ++ [(self.eventType, hass.now)] })

/-- The listener loop of `Schedule.schedule`: calls `event.schedule(hass)`
on every listener in insertion order, threading the `hass` state. -/
def scheduleFold (ls : List EventListener) (hass : Hass) : Hass :=
  ls.foldl (fun h e => (e.schedule h).2.2) hass

/-- `Schedule.schedule(hass)`: schedules every event of the schedule.  The
source has no activation guard, so nothing prevents calling it twice. -/
def Schedule.schedule (self : Schedule) (hass : Hass) : Schedule × Hass :=
  (self, scheduleFold self.event_listeners hass)

/-- Modelled from the spec: the plugin lookup (`homeassistant.loader.
get_component`, not under `src/`) — succeeds when the component name is
registered, otherwise fails with a `PluginResolutionError` naming the
unknown component string (which is all the lookup receives). -/
def get_component (registry : List String) (comp : String) : Except PyErr Unit :=
  if comp ∈ registry then .ok () else .error (.pluginResolutionError comp)

/-- Modelled from the spec: a resolved event component's `create` factory
builds a concrete handler from the owning schedule and the raw event
record, keeping a weak back-reference to the schedule's metadata. -/
def listener_create (schedule : Schedule) (event_data : EventData) : EventListener :=
  { sched_id := schedule.schedule_id
    sched_days := schedule.days
    eventType := event_data.type_
    kind := .timeOfDay event_data.minute }

/-- The listener `listener_create` builds, expressed through the owning
schedule's metadata fields (used to state round-trip properties). -/
def mkListener (sid : Option String) (days : List Nat) (e : EventData) : EventListener :=
  { sched_id := sid
    sched_days := days
    eventType := e.type_
    kind := .timeOfDay e.minute }

/-- Object constructions performed during setup, recorded as a trace. -/
inductive Eff where
  | scheduleConstructed (schedule_id : Option String)
  deriving Repr, DecidableEq

/-- Result of `setup_schedule`/`setup`: the construction trace, the `hass`
state as left behind (exceptions do not roll mutations back), and either
the raised error or the returned value. -/
structure SetupOut (α : Type) where
  effs : List Eff
  hass : Hass
  result : Except PyErr α
  deriving Repr

/-- The event loop of `setup_schedule` (source lines 51-55): resolve each
event record's component, `create` the listener and attach it. -/
def setupEvents (registry : List String) (schedule : Schedule) :
    List EventData → Except PyErr Schedule
  | [] => .ok schedule
  | e :: rest =>
    match get_component registry ("scheduler." ++ e.type_) with
    | .error err => .error err
    | .ok _ =>
      setupEvents registry (schedule.add_event_listener (listener_create schedule e)) rest

/-- `setup_schedule(schedule_data)` (source lines 42-58): subscript the
six keys in source order, construct the `Schedule`, resolve and attach a
listener per event record, then call `schedule.schedule(hass)` and return
`True`.  Iterating a `null` events value is a `TypeError`. -/
def setup_schedule (registry : List String) (hass : Hass)
    (schedule_data : ScheduleData) : SetupOut (Bool × Schedule) :=
  match schedule_data.id_.get "id" with
  | .error e => ⟨[], hass, .error e⟩
  | .ok id_ =>
  match schedule_data.name.get "name" with
  | .error e => ⟨[], hass, .error e⟩
  | .ok name =>
  match schedule_data.description.get "description" with
  | .error e => ⟨[], hass, .error e⟩
  | .ok description =>
  match schedule_data.entity_ids.get "entity_ids" with
  | .error e => ⟨[], hass, .error e⟩
  | .ok entity_ids =>
  match schedule_data.days.get "days" with
  | .error e => ⟨[], hass, .error e⟩
  | .ok days =>
  let schedule := Schedule.init id_ name description entity_ids days
  match schedule_data.events.get "events" with
  | .error e => ⟨[.scheduleConstructed id_], hass, .error e⟩
  | .ok none => ⟨[.scheduleConstructed id_], hass, .error .typeError⟩
  | .ok (some events) =>
    match setupEvents registry schedule events with
    | .error e => ⟨[.scheduleConstructed id_], hass, .error e⟩
    | .ok schedule =>
      ⟨[.scheduleConstructed id_], (schedule.schedule hass).2, .ok (true, schedule)⟩

/-- The loop of `setup` (source lines 63-67): `setup_schedule` each
description, returning `False` as soon as one returns a falsy value,
`True` after the loop. -/
def setupLoop (registry : List String) (hass : Hass) :
    List ScheduleData → SetupOut Bool
  | [] => ⟨[], hass, .ok true⟩
  | d :: rest =>
    let out := setup_schedule registry hass d
    match out.result with
    | .error e => ⟨out.effs, out.hass, .error e⟩
    | .ok (b, _) =>
      if b then
        let out2 := setupLoop registry out.hass rest
        ⟨out.effs ++ out2.effs, out2.hass, out2.result⟩
      else ⟨out.effs, out.hass, .ok false⟩

/-- `setup(hass, config)` after the schedule file has been parsed into a
list of records. -/
def setup (registry : List String) (hass : Hass)
    (schedule_descriptions : List ScheduleData) : SetupOut Bool :=
  setupLoop registry hass schedule_descriptions

/-- Modelled from the spec: the weekday (Monday = 0) of an instant on the
Monday-midnight minute epoch. -/
def weekday (t : Nat) : Nat := (t / 1440) % 7

/-- Modelled from the spec: the Clock's dispatch of one due trigger —
execute only when the current weekday passes the gate; in all cases
recompute the fire time with `computeNextFireTime` and re-register. -/
def tickTrigger (tr : Trigger) (now : Nat) (log : List (String × Nat)) :
    List (String × Nat) × Trigger :=
  let log := if weekday now ∈ tr.weekdayGate then log ++ [(tr.eventType, now)] else log
  (log, { tr with fireAt := computeNextFireTime tr.minute now })

/-- Modelled from the spec: a run of the Clock on one trigger — fire it
`n` times, each at its current `fireAt`, collecting executions. -/
def runTrigger (tr : Trigger) : Nat → List (String × Nat) × Trigger
  | 0 => ([], tr)
  | n + 1 =>
    let (l1, tr') := tickTrigger tr tr.fireAt []
    let (l2, tr'') := runTrigger tr' n
    (l1 ++ l2, tr'')

end Scheduler

namespace Modbus

/-- The `virtualBinarySensor` class: name, device class, `_state`
(initially `None`), `_available` (initially `True`). -/
structure VirtualBinarySensor where
  name : String
  device_class : Option String
  state : Option Bool
  available : Bool
  deriving Repr, DecidableEq

/-- `virtualBinarySensor.__init__`. -/
def VirtualBinarySensor.init (name : String) (device_class : Option String) :
    VirtualBinarySensor :=
  { name := name, device_class := device_class, state := none, available := true }

/-- `virtualBinarySensor.set_from_master`: copies the master's state and
availability. -/
def VirtualBinarySensor.set_from_master (self : VirtualBinarySensor)
    (state : Option Bool) (available : Bool) : VirtualBinarySensor :=
  { self with state := state, available := available }

/-- `_create_virtual(sensor_name, device_class, count, names)`: treat
`None` count as 0 and `None` names as `[]`, pad the name list with
`"{sensor_name}_{i}"` for `i` in `range(len(names) + 1, count + 1)`, and
build one virtual sensor per name. -/
def _create_virtual (sensor_name : String) (device_class : Option String)
    (count : Option Nat) (names : Option (List String)) : List VirtualBinarySensor :=
  let count := count.getD 0
  let names := names.getD []
  let names := names ++
    (List.range' (names.length + 1) (count - names.length)).map
      (fun i => sensor_name ++ "_" ++ toString i)
  names.map (fun name => VirtualBinarySensor.init name device_class)

/-- The `ModbusBinarySensor` class: `_value`, `_available`, and the
attached `_virtual_sensors` (`None` when the constructed list is empty). -/
structure ModbusBinarySensor where
  value : Option Bool
  available : Bool
  virtual_sensors : Option (List VirtualBinarySensor)
  deriving Repr, DecidableEq

/-- `ModbusBinarySensor.__init__`: stores `None` instead of an empty
virtual-sensor list. -/
def ModbusBinarySensor.init (value : Option Bool) (available : Bool)
    (virtual_sensors : List VirtualBinarySensor) : ModbusBinarySensor :=
  { value := value
    available := available
    virtual_sensors := if virtual_sensors.length = 0 then none else some virtual_sensors }

/-- The `if self._virtual_sensors:` broadcast loop: with a truthy list,
`set_from_master` on every virtual sensor. -/
def broadcast (vs : Option (List VirtualBinarySensor)) (state : Option Bool)
    (available : Bool) : Option (List VirtualBinarySensor) :=
  match vs with
  | none => none
  | some l =>
    if l.isEmpty then some l
    else some (l.map (fun e => e.set_from_master state available))

/-- `ModbusBinarySensor.async_update`: the hub call's outcome is the
`result` argument (`none` for a failed call, otherwise `bits[0] & 1` as a
Boolean).  On failure the master keeps `_value`, clears `_available` and
broadcasts; on success it stores the new value, sets `_available` and
broadcasts. -/
def ModbusBinarySensor.async_update (self : ModbusBinarySensor)
    (result : Option Bool) : ModbusBinarySensor :=
  match result with
  | none =>
    let self := { self with available := false }
    { self with virtual_sensors := broadcast self.virtual_sensors self.value self.available }
  | some b =>
    let self := { self with value := some b, available := true }
    { self with virtual_sensors := broadcast self.virtual_sensors self.value self.available }

/-- The attached virtual sensors as a list (empty when `None`). -/
def ModbusBinarySensor.virtualList (self : ModbusBinarySensor) :
    List VirtualBinarySensor :=
  self.virtual_sensors.getD []

end Modbus

namespace Scheduler

lemma pyOrList_some_nil (l : List α) : pyOrList (some l) [] = l := by
  cases l <;> simp [pyOrList]

lemma JField.get_ne_absent {f : JField α} {k : String} (h : f ≠ .absent) :
    f.get k = .ok f.toOption := by
  cases f with
  | absent => exact absurd rfl h
  | null => rfl
  | val a => rfl

lemma JField.get_ok_eq {f : JField α} {k : String} {o : Option α}
    (h : f.get k = .ok o) : o = f.toOption := by
  cases f <;> simp_all [JField.get, JField.toOption]

lemma listener_create_eq (s : Schedule) (e : EventData) :
    listener_create s e = mkListener s.schedule_id s.days e := rfl

lemma setupEvents_ok (registry : List String) :
    ∀ (evs : List EventData) (s s' : Schedule),
      setupEvents registry s evs = .ok s' →
      s' = { s with event_listeners :=
              s.event_listeners ++ evs.map (mkListener s.schedule_id s.days) } := by
  intro evs
  induction evs with
  | nil =>
    intro s s' h
    simp only [setupEvents] at h
    cases h
    simp
  | cons e rest ih =>
    intro s s' h
    simp only [setupEvents] at h
    rcases hg : get_component registry ("scheduler." ++ e.type_) with err | u
    · rw [hg] at h; cases h
    · rw [hg] at h
      have h2 := ih _ _ h
      subst h2
      simp [Schedule.add_event_listener, listener_create, mkListener]

lemma setupEvents_firstErr (registry : List String) :
    ∀ (pre : List EventData) (s : Schedule) (e : EventData) (post : List EventData),
      (∀ e' ∈ pre, ("scheduler." ++ e'.type_) ∈ registry) →
      ("scheduler." ++ e.type_) ∉ registry →
      setupEvents registry s (pre ++ e :: post) =
        .error (.pluginResolutionError ("scheduler." ++ e.type_)) := by
  intro pre
  induction pre with
  | nil =>
    intro s e post _ hne
    simp [setupEvents, get_component, hne]
  | cons p rest ih =>
    intro s e post hpre hne
    have hp : ("scheduler." ++ p.type_) ∈ registry := hpre p (by simp)
    simp only [List.cons_append, setupEvents, get_component, hp, if_pos]
    exact ih _ e post (fun e' he' => hpre e' (by simp [he'])) hne

lemma scheduleFold_length :
    ∀ (ls : List EventListener) (hass : Hass),
      (∀ l ∈ ls, l.kind ≠ ListenerKind.base) →
      (scheduleFold ls hass).triggers.length = hass.triggers.length + ls.length := by
  intro ls
  induction ls with
  | nil => intro hass _; simp [scheduleFold]
  | cons l rest ih =>
    intro hass h
    have hl : l.kind ≠ ListenerKind.base := h l (by simp)
    rcases hk : l.kind with _ | m
    · exact absurd hk hl
    · have : scheduleFold (l :: rest) hass = scheduleFold rest ((l.schedule hass).2.2) := by
        simp [scheduleFold]
      rw [this, ih _ (fun l' hl' => h l' (by simp [hl']))]
      simp [EventListener.schedule, hk]
      omega

lemma setup_schedule_ok_shape (registry : List String) (hass : Hass)
    (d : ScheduleData) (b : Bool) (s : Schedule)
    (h : (setup_schedule registry hass d).result = .ok (b, s)) :
    b = true ∧
    s.schedule_id = d.id_.toOption ∧
    s.entity_ids = pyOrList d.entity_ids.toOption [] ∧
    s.days = pyOrList d.days.toOption [0, 1, 2, 3, 4, 5, 6] ∧
    (∃ evs, d.events = .val evs ∧
      s.event_listeners = evs.map (mkListener d.id_.toOption
        (pyOrList d.days.toOption [0, 1, 2, 3, 4, 5, 6]))) ∧
    (setup_schedule registry hass d).hass = scheduleFold s.event_listeners hass ∧
    (setup_schedule registry hass d).effs = [.scheduleConstructed d.id_.toOption] := by
  rcases h1 : d.id_.get "id" with e1 | oid
  · simp [setup_schedule, h1] at h
  rcases h2 : d.name.get "name" with e2 | onm
  · simp [setup_schedule, h1, h2] at h
  rcases h3 : d.description.get "description" with e3 | odsc
  · simp [setup_schedule, h1, h2, h3] at h
  rcases h4 : d.entity_ids.get "entity_ids" with e4 | oent
  · simp [setup_schedule, h1, h2, h3, h4] at h
  rcases h5 : d.days.get "days" with e5 | odays
  · simp [setup_schedule, h1, h2, h3, h4, h5] at h
  rcases h6 : d.events.get "events" with e6 | oevs
  · simp [setup_schedule, h1, h2, h3, h4, h5, h6] at h
  rcases oevs with _ | evs
  · simp [setup_schedule, h1, h2, h3, h4, h5, h6] at h
  rcases h7 : setupEvents registry (Schedule.init oid onm odsc oent odays) evs
      with e7 | s'
  · simp [setup_schedule, h1, h2, h3, h4, h5, h6, h7] at h
  have hshape := setupEvents_ok registry evs _ _ h7
  have hid := JField.get_ok_eq h1
  have hent := JField.get_ok_eq h4
  have hdays := JField.get_ok_eq h5
  have hevs : d.events = .val evs := by
    cases hev : d.events with
    | absent => rw [hev] at h6; simp [JField.get] at h6
    | null => rw [hev] at h6; simp [JField.get] at h6
    | val a => rw [hev] at h6; simp [JField.get] at h6; rw [h6]
  have hres : (setup_schedule registry hass d).result = .ok (true, s') ∧
      (setup_schedule registry hass d).hass = scheduleFold s'.event_listeners hass ∧
      (setup_schedule registry hass d).effs = [.scheduleConstructed oid] := by
    refine ⟨?_, ?_, ?_⟩ <;>
      simp [setup_schedule, h1, h2, h3, h4, h5, h6, h7, Schedule.schedule]
  rw [hres.1] at h
  cases h
  subst hid hent hdays
  refine ⟨rfl, ?_, ?_, ?_, ⟨evs, hevs, ?_⟩, hres.2.1, hres.2.2⟩ <;>
    simp [hshape, Schedule.init]

/-- C1: for every schedule definition with N event records that loading
processes successfully, the resulting Schedule's events sequence has
length exactly N with the handlers in the same order as the definition's
event records, and the Schedule's target entity set equals the
definition's entity_ids sequence, order-preserving. -/
theorem C1_load_roundtrip (registry : List String) (hass : Hass)
    (d : ScheduleData) (eids : List String) (evs : List EventData)
    (b : Bool) (s : Schedule)
    (hent : d.entity_ids = .val eids) (hev : d.events = .val evs)
    (hok : (setup_schedule registry hass d).result = .ok (b, s)) :
    s.event_listeners.length = evs.length ∧
    s.event_listeners.map EventListener.eventType = evs.map EventData.type_ ∧
    s.entity_ids = eids := by
  obtain ⟨-, -, hsent, -, ⟨evs', hevs', hls⟩, -, -⟩ :=
    setup_schedule_ok_shape registry hass d b s hok
  rw [hev] at hevs'
  injection hevs' with heq
  subst heq
  refine ⟨?_, ?_, ?_⟩
  · rw [hls]; simp
  · rw [hls]; simp [mkListener]
  · rw [hsent, hent]; simp [JField.toOption, pyOrList_some_nil]

/-- C1 witness: a two-event definition loads into a schedule with the two
handlers in order and the entity ids preserved. -/
theorem C1_load_roundtrip_witness :
    (setup_schedule ["scheduler.time", "scheduler.sun"] ⟨360, [], []⟩
        ⟨.val "s1", .val "n", .val "d", .val ["light.a", "light.b"],
         .val [0, 2, 4], .val [⟨"time", 420⟩, ⟨"sun", 600⟩]⟩).result
      = .ok (true,
          ⟨some "s1", some "n", some "d", ["light.a", "light.b"], [0, 2, 4],
           [⟨some "s1", [0, 2, 4], "time", .timeOfDay 420⟩,
            ⟨some "s1", [0, 2, 4], "sun", .timeOfDay 600⟩]⟩) ∧
    ((⟨some "s1", some "n", some "d", ["light.a", "light.b"], [0, 2, 4],
       [⟨some "s1", [0, 2, 4], "time", .timeOfDay 420⟩,
        ⟨some "s1", [0, 2, 4], "sun", .timeOfDay 600⟩]⟩ : Schedule).event_listeners.length = 2 ∧
     (⟨some "s1", some "n", some "d", ["light.a", "light.b"], [0, 2, 4],
       [⟨some "s1", [0, 2, 4], "time", .timeOfDay 420⟩,
        ⟨some "s1", [0, 2, 4], "sun", .timeOfDay 600⟩]⟩ : Schedule).event_listeners.map
         EventListener.eventType = ["time", "sun"] ∧
     (⟨some "s1", some "n", some "d", ["light.a", "light.b"], [0, 2, 4],
       [⟨some "s1", [0, 2, 4], "time", .timeOfDay 420⟩,
        ⟨some "s1", [0, 2, 4], "sun", .timeOfDay 600⟩]⟩ : Schedule).entity_ids
       = ["light.a", "light.b"]) :=
  ⟨rfl,
   C1_load_roundtrip ["scheduler.time", "scheduler.sun"] ⟨360, [], []⟩
     ⟨.val "s1", .val "n", .val "d", .val ["light.a", "light.b"],
      .val [0, 2, 4], .val [⟨"time", 420⟩, ⟨"sun", 600⟩]⟩
     ["light.a", "light.b"] [⟨"time", 420⟩, ⟨"sun", 600⟩] true
     ⟨some "s1", some "n", some "d", ["light.a", "light.b"], [0, 2, 4],
      [⟨some "s1", [0, 2, 4], "time", .timeOfDay 420⟩,
       ⟨some "s1", [0, 2, 4], "sun", .timeOfDay 600⟩]⟩
     rfl rfl rfl⟩

/-- C5 counterexample: a definition whose `days` key is omitted does not
yield a Schedule active on all seven weekdays — `setup_schedule` raises
`KeyError('days')` and no Schedule object is constructed at all. -/
theorem C5_counterexample :
    (setup_schedule ["scheduler.time"] ⟨360, [], []⟩
        ⟨.val "s1", .val "n", .val "d", .val [], .absent,
         .val [⟨"time", 420⟩]⟩).result = .error (.keyError "days") ∧
    (setup_schedule ["scheduler.time"] ⟨360, [], []⟩
        ⟨.val "s1", .val "n", .val "d", .val [], .absent,
         .val [⟨"time", 420⟩]⟩).effs = [] :=
  ⟨rfl, rfl⟩

/-- C5 (amended): for every schedule definition whose `days` field is
null/None (unspecified), the constructed Schedule's active-days set equals
all seven weekdays; a definition that omits the `days` key altogether
instead fails loading with `KeyError('days')`. -/
theorem C5_null_days_default (registry : List String) (hass : Hass)
    (d : ScheduleData) (b : Bool) (s : Schedule)
    (hnull : d.days = .null)
    (hok : (setup_schedule registry hass d).result = .ok (b, s)) :
    s.days = [0, 1, 2, 3, 4, 5, 6] := by
  obtain ⟨-, -, -, hdays, -, -, -⟩ := setup_schedule_ok_shape registry hass d b s hok
  rw [hdays, hnull]
  rfl

/-- C5 witness: a definition with `days` null loads into a Schedule active
on all seven weekdays. -/
theorem C5_null_days_default_witness :
    (setup_schedule ["scheduler.time"] ⟨360, [], []⟩
        ⟨.val "s1", .val "n", .val "d", .val [], .null,
         .val [⟨"time", 420⟩]⟩).result
      = .ok (true,
          ⟨some "s1", some "n", some "d", [], [0, 1, 2, 3, 4, 5, 6],
           [⟨some "s1", [0, 1, 2, 3, 4, 5, 6], "time", .timeOfDay 420⟩]⟩) ∧
    (⟨some "s1", some "n", some "d", [], [0, 1, 2, 3, 4, 5, 6],
      [⟨some "s1", [0, 1, 2, 3, 4, 5, 6], "time", .timeOfDay 420⟩]⟩ : Schedule).days
      = [0, 1, 2, 3, 4, 5, 6] :=
  ⟨rfl,
   C5_null_days_default ["scheduler.time"] ⟨360, [], []⟩
     ⟨.val "s1", .val "n", .val "d", .val [], .null, .val [⟨"time", 420⟩]⟩
     true
     ⟨some "s1", some "n", some "d", [], [0, 1, 2, 3, 4, 5, 6],
      [⟨some "s1", [0, 1, 2, 3, 4, 5, 6], "time", .timeOfDay 420⟩]⟩
     rfl rfl⟩

/-- C6 counterexample: loading one well-formed definition (no caller ever
invoking an activation afterwards) already leaves a trigger registered
with the Clock — load is not free of side effects beyond construction. -/
theorem C6_counterexample :
    (setup ["scheduler.time"] ⟨360, [], []⟩
        [⟨.val "s1", .val "n", .val "d", .val [], .val [0],
          .val [⟨"time", 420⟩]⟩]).result = .ok true ∧
    (setup ["scheduler.time"] ⟨360, [], []⟩
        [⟨.val "s1", .val "n", .val "d", .val [], .val [0],
          .val [⟨"time", 420⟩]⟩]).hass.triggers.length = 1 :=
  ⟨rfl, rfl⟩

/-- C6 (amended): `setup_schedule` itself calls `schedule.schedule(hass)`
as part of loading: a successful load of a definition with N resolvable
event records registers exactly N triggers with the Clock; activation is
not deferred to the caller. -/
theorem C6_load_registers_triggers (registry : List String) (hass : Hass)
    (d : ScheduleData) (evs : List EventData) (b : Bool) (s : Schedule)
    (hev : d.events = .val evs)
    (hok : (setup_schedule registry hass d).result = .ok (b, s)) :
    (setup_schedule registry hass d).hass.triggers.length
      = hass.triggers.length + evs.length := by
  obtain ⟨-, -, -, -, ⟨evs', hevs', hls⟩, hhass, -⟩ :=
    setup_schedule_ok_shape registry hass d b s hok
  rw [hev] at hevs'
  injection hevs' with heq
  subst heq
  rw [hhass]
  rw [scheduleFold_length s.event_listeners hass ?conc]
  · rw [hls]; simp
  case conc =>
    intro l hl
    rw [hls] at hl
    simp only [List.mem_map] at hl
    obtain ⟨e, -, rfl⟩ := hl
    simp [mkListener]

/-- C6 witness: loading one definition with one event registers exactly
one trigger. -/
theorem C6_load_registers_triggers_witness :
    (setup_schedule ["scheduler.time"] ⟨360, [], []⟩
        ⟨.val "s1", .val "n", .val "d", .val [], .val [0],
         .val [⟨"time", 420⟩]⟩).result
      = .ok (true,
          ⟨some "s1", some "n", some "d", [], [0],
           [⟨some "s1", [0], "time", .timeOfDay 420⟩]⟩) ∧
    (setup_schedule ["scheduler.time"] ⟨360, [], []⟩
        ⟨.val "s1", .val "n", .val "d", .val [], .val [0],
         .val [⟨"time", 420⟩]⟩).hass.triggers.length = 1 :=
  ⟨rfl,
   C6_load_registers_triggers ["scheduler.time"] ⟨360, [], []⟩
     ⟨.val "s1", .val "n", .val "d", .val [], .val [0], .val [⟨"time", 420⟩]⟩
     [⟨"time", 420⟩] true
     ⟨some "s1", some "n", some "d", [], [0],
      [⟨some "s1", [0], "time", .timeOfDay 420⟩]⟩
     rfl rfl⟩

/-- C8: for every list of schedule descriptions on which no exception is
raised, `setup` returns True — the return-False branch is unreachable
because `setup_schedule` unconditionally returns True after scheduling a
schedule's events. -/
theorem C8_setup_returns_true (registry : List String) (b : Bool) :
    ∀ (ds : List ScheduleData) (hass : Hass),
      (setup registry hass ds).result = .ok b → b = true := by
  intro ds
  induction ds with
  | nil =>
    intro hass h
    simp [setup, setupLoop] at h
    exact h
  | cons d rest ih =>
    intro hass h
    simp only [setup, setupLoop] at h ih
    rcases hres : (setup_schedule registry hass d).result with e | p
    · rw [hres] at h; cases h
    · rcases p with ⟨b', s⟩
      have hb' : b' = true := (setup_schedule_ok_shape registry hass d b' s hres).1
      subst hb'
      rw [hres] at h
      simp only [if_pos] at h
      exact ih _ h

/-- C8 witness: a one-description run of `setup` that raises nothing
returns True. -/
theorem C8_setup_returns_true_witness :
    (setup ["scheduler.time"] ⟨360, [], []⟩
        [⟨.val "s1", .val "n", .val "d", .val [], .val [0],
          .val [⟨"time", 420⟩]⟩]).result = .ok true ∧ true = true :=
  ⟨rfl,
   C8_setup_returns_true ["scheduler.time"] true
     [⟨.val "s1", .val "n", .val "d", .val [], .val [0], .val [⟨"time", 420⟩]⟩]
     ⟨360, [], []⟩ rfl⟩

/-- C2 counterexample: with an unknown event type "foo", a Schedule object
IS constructed for the definition (the construction precedes event
resolution), and the raised error names only the component string built
from the type — by its very shape it carries no schedule id. -/
theorem C2_counterexample :
    (setup_schedule ["scheduler.time"] ⟨360, [], []⟩
        ⟨.val "s1", .val "n", .val "d", .val [], .val [0],
         .val [⟨"foo", 420⟩]⟩).effs
      = [.scheduleConstructed (some "s1")] ∧
    (setup_schedule ["scheduler.time"] ⟨360, [], []⟩
        ⟨.val "s1", .val "n", .val "d", .val [], .val [0],
         .val [⟨"foo", 420⟩]⟩).result
      = .error (.pluginResolutionError "scheduler.foo") :=
  ⟨rfl, rfl⟩

/-- C2 (amended): an event record whose type does not resolve fails the
load of that definition with a `PluginResolutionError` naming the
offending component/type string only (not the schedule id); the Schedule
object is constructed before the failure, but the schedule is never
scheduled and the Clock state is left untouched. -/
theorem C2_unknown_type_fails (registry : List String) (hass : Hass)
    (d : ScheduleData) (pre : List EventData) (e : EventData)
    (post : List EventData)
    (hid : d.id_ ≠ .absent) (hnm : d.name ≠ .absent)
    (hdsc : d.description ≠ .absent) (hent : d.entity_ids ≠ .absent)
    (hdays : d.days ≠ .absent)
    (hev : d.events = .val (pre ++ e :: post))
    (hpre : ∀ e' ∈ pre, ("scheduler." ++ e'.type_) ∈ registry)
    (hne : ("scheduler." ++ e.type_) ∉ registry) :
    (setup_schedule registry hass d).result
      = .error (.pluginResolutionError ("scheduler." ++ e.type_)) ∧
    (setup_schedule registry hass d).effs
      = [.scheduleConstructed d.id_.toOption] ∧
    (setup_schedule registry hass d).hass = hass := by
  have h1 := JField.get_ne_absent (k := "id") hid
  have h2 := JField.get_ne_absent (k := "name") hnm
  have h3 := JField.get_ne_absent (k := "description") hdsc
  have h4 := JField.get_ne_absent (k := "entity_ids") hent
  have h5 := JField.get_ne_absent (k := "days") hdays
  have h6 : d.events.get "events" = .ok (some (pre ++ e :: post)) := by
    rw [hev]; rfl
  have h7 := setupEvents_firstErr registry pre
    (Schedule.init d.id_.toOption d.name.toOption d.description.toOption
      d.entity_ids.toOption d.days.toOption) e post hpre hne
  refine ⟨?_, ?_, ?_⟩ <;>
    simp [setup_schedule, h1, h2, h3, h4, h5, h6, h7]

/-- C2 witness: a concrete definition with the unknown type "foo". -/
theorem C2_unknown_type_fails_witness :
    (setup_schedule ["scheduler.time"] ⟨360, [], []⟩
        ⟨.val "s1", .val "n", .val "d", .val [], .val [0],
         .val [⟨"time", 420⟩, ⟨"foo", 600⟩]⟩).result
      = .error (.pluginResolutionError "scheduler.foo") ∧
    (setup_schedule ["scheduler.time"] ⟨360, [], []⟩
        ⟨.val "s1", .val "n", .val "d", .val [], .val [0],
         .val [⟨"time", 420⟩, ⟨"foo", 600⟩]⟩).effs
      = [.scheduleConstructed (some "s1")] ∧
    (setup_schedule ["scheduler.time"] ⟨360, [], []⟩
        ⟨.val "s1", .val "n", .val "d", .val [], .val [0],
         .val [⟨"time", 420⟩, ⟨"foo", 600⟩]⟩).hass = ⟨360, [], []⟩ :=
  C2_unknown_type_fails ["scheduler.time"] ⟨360, [], []⟩
    ⟨.val "s1", .val "n", .val "d", .val [], .val [0],
     .val [⟨"time", 420⟩, ⟨"foo", 600⟩]⟩
    [⟨"time", 420⟩] ⟨"foo", 600⟩ []
    (by simp) (by simp) (by simp) (by simp) (by simp)
    rfl (by simp) (by simp)

/-- C3 counterexample: calling `Schedule.schedule` twice on the same
instance (one concrete listener) leaves two pending triggers — the second
call registers again instead of raising any error; the method's type has
no error outcome at all. -/
theorem C3_counterexample :
    ((Schedule.schedule
        ⟨some "s", none, none, [], [0],
         [⟨some "s", [0], "time", .timeOfDay 420⟩]⟩
        (Schedule.schedule
          ⟨some "s", none, none, [], [0],
           [⟨some "s", [0], "time", .timeOfDay 420⟩]⟩
          ⟨360, [], []⟩).2).2).triggers.length = 2 :=
  rfl

/-- C3 (amended): the first call to `Schedule.schedule` registers exactly
one trigger per owned concrete EventHandler, but the source has no
double-activation guard: a second call on the same instance registers the
same triggers again (the pending count doubles) and raises no error. -/
theorem C3_activate_no_guard (s : Schedule) (hass : Hass)
    (hconc : ∀ l ∈ s.event_listeners, l.kind ≠ ListenerKind.base) :
    (s.schedule hass).2.triggers.length
      = hass.triggers.length + s.event_listeners.length ∧
    (((s.schedule hass).1.schedule (s.schedule hass).2).2).triggers.length
      = hass.triggers.length + 2 * s.event_listeners.length := by
  have h1 := scheduleFold_length s.event_listeners hass hconc
  have h2 := scheduleFold_length s.event_listeners
    (scheduleFold s.event_listeners hass) hconc
  simp only [Schedule.schedule] at *
  omega

/-- C3 witness: one concrete listener — one trigger after the first call,
two after the second. -/
theorem C3_activate_no_guard_witness :
    ((Schedule.schedule
        ⟨some "s", none, none, [], [0],
         [⟨some "s", [0], "time", .timeOfDay 420⟩]⟩
        ⟨360, [], []⟩).2).triggers.length = 1 ∧
    ((Schedule.schedule
        (Schedule.schedule
          ⟨some "s", none, none, [], [0],
           [⟨some "s", [0], "time", .timeOfDay 420⟩]⟩
          ⟨360, [], []⟩).1
        (Schedule.schedule
          ⟨some "s", none, none, [], [0],
           [⟨some "s", [0], "time", .timeOfDay 420⟩]⟩
          ⟨360, [], []⟩).2).2).triggers.length = 2 :=
  C3_activate_no_guard
    ⟨some "s", none, none, [], [0], [⟨some "s", [0], "time", .timeOfDay 420⟩]⟩
    ⟨360, [], []⟩ (by decide)

lemma runTrigger_empty_gate :
    ∀ (n : Nat) (tr : Trigger), tr.weekdayGate = [] →
      (runTrigger tr n).1 = [] := by
  intro n
  induction n with
  | zero => intro tr _; rfl
  | succ n ih =>
    intro tr h
    simp only [runTrigger, tickTrigger, h, weekday]
    simp
    exact ih _ rfl

/-- C4: for every Schedule whose set of active days is empty, no trigger
gated on it ever invokes a handler's execution when due, while each
due-but-skipped firing still advances the trigger by recomputing its next
fire time via `computeNextFireTime` and re-registering it (and the
recomputed time is strictly later, so the trigger keeps advancing). -/
theorem C4_empty_days_skip_not_cancel (s : Schedule) (tr : Trigger)
    (hdays : s.days = []) (hgate : tr.weekdayGate = s.days) :
    (∀ now log, tickTrigger tr now log
        = (log, { tr with fireAt := computeNextFireTime tr.minute now })) ∧
    (∀ n, (runTrigger tr n).1 = []) ∧
    (∀ now, now < computeNextFireTime tr.minute now) := by
  have hg : tr.weekdayGate = [] := by rw [hgate, hdays]
  refine ⟨?_, fun n => runTrigger_empty_gate n tr hg, ?_⟩
  · intro now log
    simp [tickTrigger, hg]
  · intro now
    simp only [computeNextFireTime]
    by_cases hd : (tr.minute % 1440 + 1440 - now % 1440) % 1440 = 0
    · simp [hd]
    · simp [hd]
      omega

/-- C4 witness: a trigger with an empty weekday gate, due at Monday 07:00:
the skipped firing executes nothing and re-registers at the next 07:00. -/
theorem C4_empty_days_skip_not_cancel_witness :
    tickTrigger ⟨"time", 420, 420, []⟩ 420 [] = ([], ⟨"time", 420, 1860, []⟩) ∧
    (runTrigger ⟨"time", 420, 420, []⟩ 3).1 = [] ∧
    (420 : Nat) < computeNextFireTime 420 420 :=
  ⟨(C4_empty_days_skip_not_cancel ⟨some "s", none, none, [], [], []⟩
      ⟨"time", 420, 420, []⟩ rfl rfl).1 420 [],
   (C4_empty_days_skip_not_cancel ⟨some "s", none, none, [], [], []⟩
      ⟨"time", 420, 420, []⟩ rfl rfl).2.1 3,
   (C4_empty_days_skip_not_cancel ⟨some "s", none, none, [], [], []⟩
      ⟨"time", 420, 420, []⟩ rfl rfl).2.2 420⟩

/-- C7: the base `EventListener` class's `schedule` and `execute` methods
do nothing: each returns `None` (unit) and leaves the handler and the
passed-in `hass` state (and hence anything reachable from them, including
the owning Schedule) unchanged. -/
theorem C7_base_listener_noop (l : EventListener) (hass : Hass)
    (hbase : l.kind = .base) :
    l.schedule hass = ((), l, hass) ∧ l.execute hass = ((), l, hass) := by
  constructor <;> simp [EventListener.schedule, EventListener.execute, hbase]

/-- C7 witness: a concrete base-class listener. -/
theorem C7_base_listener_noop_witness :
    EventListener.schedule ⟨some "s", [0], "x", .base⟩ ⟨360, [], []⟩
      = ((), ⟨some "s", [0], "x", .base⟩, ⟨360, [], []⟩) ∧
    EventListener.execute ⟨some "s", [0], "x", .base⟩ ⟨360, [], []⟩
      = ((), ⟨some "s", [0], "x", .base⟩, ⟨360, [], []⟩) :=
  C7_base_listener_noop ⟨some "s", [0], "x", .base⟩ ⟨360, [], []⟩ rfl

end Scheduler

namespace Modbus

lemma broadcast_mem (vs : Option (List VirtualBinarySensor))
    (st : Option Bool) (av : Bool) (v : VirtualBinarySensor)
    (hv : v ∈ (broadcast vs st av).getD []) :
    v.state = st ∧ v.available = av := by
  rcases vs with _ | l
  · simp [broadcast] at hv
  · rcases l with _ | ⟨v0, rest⟩
    · simp [broadcast] at hv
    · simp [broadcast, VirtualBinarySensor.set_from_master, List.mem_map] at hv
      rcases hv with rfl | ⟨a, ha, rfl⟩
      · exact ⟨rfl, rfl⟩
      · exact ⟨rfl, rfl⟩

/-- C9: after every call to `ModbusBinarySensor.async_update`, each
attached virtual sensor's state and availability equal the master
sensor's value and availability; in particular, when the hub call returns
None the master keeps its previous value, becomes unavailable, and
broadcasts that stale value together with available = False to every
virtual sensor. -/
theorem C9_update_broadcast (m : ModbusBinarySensor) (result : Option Bool) :
    (∀ v ∈ (m.async_update result).virtualList,
        v.state = (m.async_update result).value ∧
        v.available = (m.async_update result).available) ∧
    (result = none →
        (m.async_update result).value = m.value ∧
        (m.async_update result).available = false) := by
  constructor
  · intro v hv
    rcases result with _ | b
    · exact broadcast_mem m.virtual_sensors m.value false v hv
    · exact broadcast_mem m.virtual_sensors (some b) true v hv
  · rintro rfl
    exact ⟨rfl, rfl⟩

/-- C9 witness: a failed hub call on a master holding `some true` with one
virtual sensor — the stale value and unavailability are broadcast. -/
theorem C9_update_broadcast_witness :
    ((ModbusBinarySensor.async_update
        ⟨some true, true, some [⟨"v1", none, none, true⟩]⟩ none).value = some true ∧
     (ModbusBinarySensor.async_update
        ⟨some true, true, some [⟨"v1", none, none, true⟩]⟩ none).available = false) ∧
    ((⟨"v1", none, some true, false⟩ : VirtualBinarySensor).state
        = (ModbusBinarySensor.async_update
            ⟨some true, true, some [⟨"v1", none, none, true⟩]⟩ none).value ∧
     (⟨"v1", none, some true, false⟩ : VirtualBinarySensor).available
        = (ModbusBinarySensor.async_update
            ⟨some true, true, some [⟨"v1", none, none, true⟩]⟩ none).available) :=
  ⟨(C9_update_broadcast ⟨some true, true, some [⟨"v1", none, none, true⟩]⟩ none).2 rfl,
   (C9_update_broadcast ⟨some true, true, some [⟨"v1", none, none, true⟩]⟩ none).1
     ⟨"v1", none, some true, false⟩ (by simp [ModbusBinarySensor.async_update,
       broadcast, ModbusBinarySensor.virtualList, VirtualBinarySensor.set_from_master])⟩

/-- C10: for every sensor_name, device_class, count, and names (treating
a None count as 0 and None names as the empty list), `_create_virtual`
returns exactly max(count, len(names)) virtual sensors: the first
len(names) carry the given names in order, and any remainder are named
"{sensor_name}_{i}" for i from len(names)+1 to count. -/
theorem C10_create_virtual (sensor_name : String) (device_class : Option String)
    (count : Option Nat) (names : Option (List String)) :
    (_create_virtual sensor_name device_class count names).length
      = max (count.getD 0) ((names.getD []).length) ∧
    (_create_virtual sensor_name device_class count names).map
        VirtualBinarySensor.name
      = names.getD [] ++
        (List.range' ((names.getD []).length + 1)
            (count.getD 0 - (names.getD []).length)).map
          (fun i => sensor_name ++ "_" ++ toString i) := by
  constructor
  · simp [_create_virtual, List.length_range']
    omega
  · simp [_create_virtual, VirtualBinarySensor.init, Function.comp_def]

end Modbus
